import Mathlib

/-!
Shallow embedding of the weverse response-to-domain-object mapping layer
(the files attachment.py, member.py and post.py of the weverse.objects
package).

JSON payloads are modelled by an inductive type; Python dictionaries are
association lists in key-insertion order (CPython dicts preserve insertion
order and have unique keys).  Fallible construction is modelled in
Except PyErr: a missing required key is PyErr.keyError k (Python KeyError),
subscripting or iterating a value that is not a mapping is PyErr.typeError,
and the raise NotImplementedError in the shared eq methods is
PyErr.notImplementedError.  Entity fields carry raw JSON values because the
Python constructors store the looked-up values without any runtime coercion;
a Python None stored by dict.get for an absent key is JSON.null.
-/

inductive JSON where
  | null
  | bool (b : Bool)
  | num (n : Int)
  | str (s : String)
  | obj (entries : List (String × JSON))

/-- Structural equality test on JSON values, modelling the Python operator
x == y on decoded JSON data.  (Claims only ever compare scalar values, where
Python equality is exactly structural equality.) -/
def JSON.beq : JSON → JSON → Bool
  | .null, .null => true
  | .bool a, .bool b => a == b
  | .num a, .num b => a == b
  | .str a, .str b => a == b
  | .obj a, .obj b => beqEntries a b
  | _, _ => false
where
  beqEntries : List (String × JSON) → List (String × JSON) → Bool
  | [], [] => true
  | (k1, v1) :: r1, (k2, v2) :: r2 => k1 == k2 && JSON.beq v1 v2 && beqEntries r1 r2
  | _, _ => false

instance : BEq JSON := ⟨JSON.beq⟩

/-- A decoded Python dict: string keys with JSON values, in key-insertion
order, keys unique. -/
abbrev Dict := List (String × JSON)

/-- Python exceptions surfaced by this layer. -/
inductive PyErr where
  | keyError (key : String)
  | typeError
  | notImplementedError
deriving DecidableEq

/-- Python d.get(k): some value if the key is present, none otherwise. -/
def dgetOpt (d : Dict) (k : String) : Option JSON :=
  (d.find? (fun kv => kv.1 == k)).map (fun kv => kv.2)

/-- Python d[k]: the value if the key is present, KeyError otherwise. -/
def dget (d : Dict) (k : String) : Except PyErr JSON :=
  match dgetOpt d k with
  | some v => .ok v
  | none => .error (.keyError k)

/-- Python d.get(k) as the stored value: JSON.null (Python None) when the
key is absent. -/
def dgetDefault (d : Dict) (k : String) : JSON :=
  (dgetOpt d k).getD JSON.null

/-- Python truthiness of a decoded JSON value: None, False, 0, the empty
string and the empty mapping are falsy. -/
def truthy : JSON → Bool
  | .null => false
  | .bool b => b
  | .num n => n != 0
  | .str s => s != ""
  | .obj entries => !entries.isEmpty

/-- Subscripting or calling dict methods on a value requires it to be a
mapping; any other shape is a TypeError at the point of extraction. -/
def asObj : JSON → Except PyErr Dict
  | .obj entries => .ok entries
  | _ => .error .typeError

/-- Model of the Python builtin hash restricted to the hashable JSON
scalars (entity ids are scalars).  Only its determinism is relied upon. -/
def pyHash : JSON → Nat
  | .null => 17
  | .bool b => if b then 1 else 0
  | .num n => n.natAbs
  | .str s => s.foldl (fun a c => a * 31 + c.toNat) 7
  | .obj _ => 0

/-- Photo (attachment.py): required fields photoId, url, height, width. -/
structure Photo where
  data : Dict
  id : JSON
  url : JSON
  height : JSON
  width : JSON

def Photo.init (data : Dict) : Except PyErr Photo := do
  let i ← dget data "photoId"
  let u ← dget data "url"
  let hi ← dget data "height"
  let wi ← dget data "width"
  return ⟨data, i, u, hi, wi⟩

/-- Video (attachment.py): videoId plus playTime, height, width, imageUrl
nested under the required uploadInfo sub-mapping. -/
structure Video where
  data : Dict
  id : JSON
  duration : JSON
  height : JSON
  width : JSON
  thumbnail_url : JSON

def Video.init (data : Dict) : Except PyErr Video := do
  let i ← dget data "videoId"
  let upJ ← dget data "uploadInfo"
  let up ← asObj upJ
  let du ← dget up "playTime"
  let hi ← dget up "height"
  let wi ← dget up "width"
  let tu ← dget up "imageUrl"
  return ⟨data, i, du, hi, wi, tu⟩

/-- Snippet (attachment.py): required snippetId, url, title, description,
domain; optional type and site via dict.get; thumbnail url read from the
image sub-mapping only when data.get("image") is truthy. -/
structure Snippet where
  data : Dict
  id : JSON
  url : JSON
  title : JSON
  description : JSON
  type : JSON
  site : JSON
  domain : JSON
  thumbnail_url : JSON

def Snippet.init (data : Dict) : Except PyErr Snippet := do
  let i ← dget data "snippetId"
  let u ← dget data "url"
  let t ← dget data "title"
  let de ← dget data "description"
  let ty := dgetDefault data "type"
  let si := dgetDefault data "site"
  let dom ← dget data "domain"
  let tu ← (match dgetOpt data "image" with
    | some v =>
      if truthy v then do
        let img ← asObj v
        dget img "url"
      else pure JSON.null
    | none => pure JSON.null)
  return ⟨data, i, u, t, de, ty, si, dom, tu⟩

/-- PartialMember (member.py): required memberId, profileName, profileType;
optional profileImageUrl via dict.get. -/
structure PartialMember where
  data : Dict
  id : JSON
  name : JSON
  image_url : JSON
  profile_type : JSON

def PartialMember.init (data : Dict) : Except PyErr PartialMember := do
  let i ← dget data "memberId"
  let n ← dget data "profileName"
  let img := dgetDefault data "profileImageUrl"
  let pt ← dget data "profileType"
  return ⟨data, i, n, img, pt⟩

/-- ArtistProfile (member.py): officialName, officialImageUrl and the date
field nested under the required birthday sub-mapping. -/
structure ArtistProfile where
  official_name : JSON
  official_image_url : JSON
  birthday : JSON

def ArtistProfile.init (data : Dict) : Except PyErr ArtistProfile := do
  let n ← dget data "officialName"
  let iu ← dget data "officialImageUrl"
  let bj ← dget data "birthday"
  let bo ← asObj bj
  let bd ← dget bo "date"
  return ⟨n, iu, bd⟩

/-- Artist (member.py): the PartialMember fields plus communityId, a
required artistOfficialProfile sub-mapping and joinedDate. -/
structure Artist where
  data : Dict
  id : JSON
  name : JSON
  image_url : JSON
  profile_type : JSON
  community_id : JSON
  artist_profile : ArtistProfile
  join_date : JSON

def Artist.init (data : Dict) : Except PyErr Artist := do
  let base ← PartialMember.init data
  let cid ← dget data "communityId"
  let apJ ← dget data "artistOfficialProfile"
  let apo ← asObj apJ
  let ap ← ArtistProfile.init apo
  let jd ← dget data "joinedDate"
  return ⟨data, base.id, base.name, base.image_url, base.profile_type, cid, ap, jd⟩

/-- PostAuthor (member.py): the PartialMember fields plus communityId, the
joined, hasOfficialMark and myProfile flags stored raw, the accessibility
flag computed by comparing profileSpaceStatus with the sentinel string
ACCESSIBLE, and an ArtistProfile built only when the artistOfficialProfile
key is present. -/
structure PostAuthor where
  data : Dict
  id : JSON
  name : JSON
  image_url : JSON
  profile_type : JSON
  community_id : JSON
  has_joined : JSON
  is_official : JSON
  profile_is_accessible : Bool
  is_my_profile : JSON
  artist_profile : Option ArtistProfile

def PostAuthor.init (data : Dict) : Except PyErr PostAuthor := do
  let base ← PartialMember.init data
  let cid ← dget data "communityId"
  let jn ← dget data "joined"
  let om ← dget data "hasOfficialMark"
  let st ← dget data "profileSpaceStatus"
  let my ← dget data "myProfile"
  let ap ← (match dgetOpt data "artistOfficialProfile" with
    | some v => do
      let apo ← asObj v
      let prof ← ArtistProfile.init apo
      pure (some prof)
    | none => pure none)
  return ⟨data, base.id, base.name, base.image_url, base.profile_type, cid, jn, om,
    st == JSON.str "ACCESSIBLE", my, ap⟩

/-- Member (member.py): the PartialMember fields plus communityId, optional
profileCoverImageUrl and profileComment via dict.get, seven required flags
stored raw, firstJoinAt, a follower count read from the followCount
sub-mapping only when that key is present, and an ArtistProfile built only
when the artistOfficialProfile key is present. -/
structure Member where
  data : Dict
  id : JSON
  name : JSON
  image_url : JSON
  profile_type : JSON
  community_id : JSON
  profile_cover_image_url : JSON
  profile_comment : JSON
  has_joined : JSON
  has_membership : JSON
  is_official : JSON
  is_hidden : JSON
  is_blinded : JSON
  is_followed : JSON
  is_my_profile : JSON
  first_joined_at : JSON
  follow_count : JSON
  artist_profile : Option ArtistProfile

def Member.init (data : Dict) : Except PyErr Member := do
  let base ← PartialMember.init data
  let cid ← dget data "communityId"
  let cov := dgetDefault data "profileCoverImageUrl"
  let pc := dgetDefault data "profileComment"
  let jn ← dget data "joined"
  let hm ← dget data "hasMembership"
  let om ← dget data "hasOfficialMark"
  let hid ← dget data "hidden"
  let bl ← dget data "blinded"
  let fo ← dget data "followed"
  let my ← dget data "myProfile"
  let fj ← dget data "firstJoinAt"
  let fc ← (match dgetOpt data "followCount" with
    | some v => do
      let fco ← asObj v
      dget fco "followerCount"
    | none => pure JSON.null)
  let ap ← (match dgetOpt data "artistOfficialProfile" with
    | some v => do
      let apo ← asObj v
      let prof ← ArtistProfile.init apo
      pure (some prof)
    | none => pure none)
  return ⟨data, base.id, base.name, base.image_url, base.profile_type, cid, cov, pc,
    jn, hm, om, hid, bl, fo, my, fj, fc, ap⟩

/-- Modelled from the spec: the community module is not among the source
files; the spec describes PartialCommunity only as a lightweight external
entity reference whose field contract is not detailed, so it is modelled as
retaining the raw sub-mapping it is constructed from. -/
structure PartialCommunity where
  data : Dict

def PartialCommunity.init (data : Dict) : PartialCommunity := ⟨data⟩

/-- PostLike (post.py): fifteen required scalar fields, a required author
sub-mapping built into a PostAuthor, a required community sub-mapping built
into a PartialCommunity, and an optional viewerEmotionId via dict.get. -/
structure PostLike where
  data : Dict
  id : JSON
  body : JSON
  plain_body : JSON
  url : JSON
  like_count : JSON
  comment_count : JSON
  published_at : JSON
  is_bookmarked : JSON
  is_locked : JSON
  is_hidden_from_artist : JSON
  is_membership_only : JSON
  has_product : JSON
  hashtags : JSON
  post_type : JSON
  section_type : JSON
  author : PostAuthor
  community : PartialCommunity
  like_id : JSON

def PostLike.init (data : Dict) : Except PyErr PostLike := do
  let i ← dget data "postId"
  let bo ← dget data "body"
  let pb ← dget data "plainBody"
  let u ← dget data "shareUrl"
  let lc ← dget data "emotionCount"
  let cc ← dget data "commentCount"
  let pa ← dget data "publishedAt"
  let bm ← dget data "bookmarked"
  let lk ← dget data "locked"
  let hfa ← dget data "hideFromArtist"
  let mo ← dget data "membershipOnly"
  let hp ← dget data "hasProduct"
  let tg ← dget data "tags"
  let pt ← dget data "postType"
  let st ← dget data "sectionType"
  let aJ ← dget data "author"
  let ao ← asObj aJ
  let auth ← PostAuthor.init ao
  let cJ ← dget data "community"
  let co ← asObj cJ
  let comm := PartialCommunity.init co
  let li := dgetDefault data "viewerEmotionId"
  return ⟨data, i, bo, pb, u, lc, cc, pa, bm, lk, hfa, mo, hp, tg, pt, st, auth, comm, li⟩

/-- Post (post.py) adds no stored fields to PostLike; its constructor is the
inherited PostLike constructor. -/
abbrev Post := PostLike

def Post.init (data : Dict) : Except PyErr Post := PostLike.init data

/-- Common shape of the three Post accessor properties: subscript the
retained raw payload at "attachment" (KeyError when absent), return the
empty list when the bucket looked up with dict.get is absent or falsy, and
otherwise build one leaf object per value of the bucket, in the bucket
key-insertion order of the bucket mapping. -/
def attachmentList (p : Post) (kind : String) (leaf : Dict → Except PyErr α) :
    Except PyErr (List α) := do
  let attJ ← dget p.data "attachment"
  let att ← asObj attJ
  match dgetOpt att kind with
  | some v =>
    if truthy v then do
      let bucket ← asObj v
      bucket.mapM (fun kv => do
        let o ← asObj kv.2
        leaf o)
    else pure []
  | none => pure []

def Post.photos (p : Post) : Except PyErr (List Photo) :=
  attachmentList p "photo" Photo.init

def Post.videos (p : Post) : Except PyErr (List Video) :=
  attachmentList p "video" Video.init

def Post.snippets (p : Post) : Except PyErr (List Snippet) :=
  attachmentList p "snippet" Snippet.init

/-- The Python classes of this layer and their (single-level) inheritance. -/
inductive PyClass where
  | CPhoto
  | CVideo
  | CSnippet
  | CPartialMember
  | CArtist
  | CPostAuthor
  | CMember
  | CPostLike
  | CPost
deriving DecidableEq

def PyClass.parent : PyClass → Option PyClass
  | .CArtist => some .CPartialMember
  | .CPostAuthor => some .CPartialMember
  | .CMember => some .CPartialMember
  | .CPost => some .CPostLike
  | _ => none

/-- c is d itself or a subclass of d (the hierarchy is one level deep). -/
def isSubclass (c d : PyClass) : Bool :=
  c == d ||
    (match c.parent with
     | some p => p == d
     | none => false)

/-- Python isinstance(obj, target) in terms of the runtime class of obj. -/
def isinstance (objCls target : PyClass) : Bool := isSubclass objCls target

/-- The identity view of an entity: its runtime class and its id field.
The eq and hash methods of every entity read nothing else. -/
structure PyObj where
  cls : PyClass
  id : JSON

def Photo.toPyObj (x : Photo) : PyObj := ⟨.CPhoto, x.id⟩

def Video.toPyObj (x : Video) : PyObj := ⟨.CVideo, x.id⟩

def Snippet.toPyObj (x : Snippet) : PyObj := ⟨.CSnippet, x.id⟩

def PartialMember.toPyObj (x : PartialMember) : PyObj := ⟨.CPartialMember, x.id⟩

def Member.toPyObj (x : Member) : PyObj := ⟨.CMember, x.id⟩

def PostLike.toPyObj (x : PostLike) : PyObj := ⟨.CPostLike, x.id⟩

/-- The body of the textually identical eq methods of Photo, Video,
Snippet, PartialMember and PostLike (inherited by every other entity
class), called with a as self and b as the other operand: if the other
operand is an instance of the runtime class of self, compare ids;
otherwise raise NotImplementedError. -/
def dunderEq (a b : PyObj) : Except PyErr Bool :=
  if isinstance b.cls a.cls then .ok (a.id == b.id)
  else .error .notImplementedError

/-- CPython rich-comparison dispatch for a == b: when the runtime class of
the right operand is a proper subclass of the runtime class of the left
operand, the reflected method of the right operand is tried first (no
override of the inherited method is required); otherwise the method of the
left operand runs.  Either call runs the shared inherited method body, and
an exception it raises propagates. -/
def pyEq (a b : PyObj) : Except PyErr Bool :=
  if isSubclass b.cls a.cls && !(b.cls == a.cls) then dunderEq b a
  else dunderEq a b

/-- The identical hash methods: hash(self.id). -/
def PyObj.hashVal (a : PyObj) : Nat := pyHash a.id

/-- Photo str method: returns the url. -/
def Photo.str (x : Photo) : JSON := x.url

/-- Snippet str method: returns the title. -/
def Snippet.str (x : Snippet) : JSON := x.title

/-- PartialMember str method: returns the name. -/
def PartialMember.str (x : PartialMember) : JSON := x.name

/-- PostAuthor inherits the PartialMember str method. -/
def PostAuthor.str (x : PostAuthor) : JSON := x.name

/-- Member inherits the PartialMember str method. -/
def Member.str (x : Member) : JSON := x.name

/-- Artist inherits the PartialMember str method. -/
def Artist.str (x : Artist) : JSON := x.name

/-- Post str method: returns the plain body. -/
def Post.str (p : Post) : JSON := p.plain_body

/-! ### Helper lemmas -/

theorem except_bind_ok {α β : Type} {x : Except PyErr α} {f : α → Except PyErr β} {b : β}
    (h : x >>= f = .ok b) : ∃ a, x = .ok a ∧ f a = .ok b := by
  cases x with
  | error e => simp [Bind.bind, Except.bind] at h
  | ok a => exact ⟨a, rfl, by simpa [Bind.bind, Except.bind] using h⟩

theorem mapM_ok_length {α β : Type} (f : α → Except PyErr β) :
    ∀ (l : List α) (res : List β), l.mapM f = .ok res → res.length = l.length := by
  intro l
  induction l with
  | nil =>
    intro res h
    rw [List.mapM_nil] at h
    simp [Pure.pure, Except.pure] at h
    simp [h.symm]
  | cons a t ih =>
    intro res h
    rw [List.mapM_cons] at h
    obtain ⟨b, hb, h2⟩ := except_bind_ok h
    obtain ⟨bs, hbs, h3⟩ := except_bind_ok h2
    simp [Pure.pure, Except.pure] at h3
    simp [h3.symm, ih bs hbs]

theorem pyHash_congr (a b : JSON) (h : (a == b) = true) : pyHash a = pyHash b := by
  cases a <;> cases b <;> simp_all [BEq.beq, JSON.beq, pyHash]

/-! ### C7 -/

/-- C7: constructing a Photo from a payload holding its four required keys
succeeds and every field is exactly the corresponding raw payload value,
with no transformation. -/
theorem photo_required_fields_passthrough (d : Dict) (vi vu vh vw : JSON)
    (h1 : dgetOpt d "photoId" = some vi) (h2 : dgetOpt d "url" = some vu)
    (h3 : dgetOpt d "height" = some vh) (h4 : dgetOpt d "width" = some vw) :
    Photo.init d = .ok ⟨d, vi, vu, vh, vw⟩ := by
  simp [Photo.init, dget, h1, h2, h3, h4, Bind.bind, Except.bind, Pure.pure, Except.pure]

def photoData : Dict :=
  [("photoId", .str "p1"), ("url", .str "http://x/1.jpg"),
   ("height", .num 100), ("width", .num 200)]

/-- C7 witness: the concrete scenario of the spec. -/
theorem photo_required_fields_passthrough_witness :
    Photo.init photoData =
      .ok ⟨photoData, .str "p1", .str "http://x/1.jpg", .num 100, .num 200⟩ :=
  photo_required_fields_passthrough photoData _ _ _ _ rfl rfl rfl rfl

/-! ### C10 -/

/-- C10: the default string conversion of each entity returns its
designated field: the url for Photo, the title for Snippet, the name for
PartialMember and its specializations, the plain body for Post. -/
theorem str_returns_designated_field :
    (∀ x : Photo, Photo.str x = x.url) ∧
    (∀ x : Snippet, Snippet.str x = x.title) ∧
    (∀ x : PartialMember, PartialMember.str x = x.name) ∧
    (∀ x : PostAuthor, PostAuthor.str x = x.name) ∧
    (∀ x : Member, Member.str x = x.name) ∧
    (∀ x : Artist, Artist.str x = x.name) ∧
    (∀ p : Post, Post.str p = p.plain_body) :=
  ⟨fun _ => rfl, fun _ => rfl, fun _ => rfl, fun _ => rfl, fun _ => rfl,
   fun _ => rfl, fun _ => rfl⟩

/-! ### C2 -/

/-- C2: the equality check a == b, under the CPython dispatch that tries
the reflected method first when the right operand is of a proper subclass,
returns the id comparison when the two operands are of the same concrete
kind, and raises NotImplementedError whenever their concrete kinds differ
(sibling kinds, and a base kind against one of its specializations in
either order: the reflected call runs the inherited method with the
specialization as self, whose isinstance check then fails). -/
theorem entity_eq_contract (a b : PyObj) :
    (a.cls = b.cls → pyEq a b = .ok (a.id == b.id)) ∧
    (a.cls ≠ b.cls → pyEq a b = .error .notImplementedError) := by
  obtain ⟨ca, ia⟩ := a
  obtain ⟨cb, ib⟩ := b
  cases ca <;> cases cb <;>
    simp [pyEq, dunderEq, isinstance, isSubclass, PyClass.parent]

/-- C2 witness: same concrete kind with equal ids compares equal, and a
PartialMember compared with a Member of the same id raises. -/
theorem entity_eq_contract_witness :
    pyEq ⟨.CPhoto, .str "a"⟩ ⟨.CPhoto, .str "a"⟩ = .ok true ∧
    pyEq ⟨.CPartialMember, .str "m1"⟩ ⟨.CMember, .str "m1"⟩ =
      .error .notImplementedError := by
  constructor
  · have h := (entity_eq_contract ⟨.CPhoto, .str "a"⟩ ⟨.CPhoto, .str "a"⟩).1 rfl
    simpa [BEq.beq, JSON.beq] using h
  · exact (entity_eq_contract ⟨.CPartialMember, .str "m1"⟩ ⟨.CMember, .str "m1"⟩).2
      (by decide)

/-! ### C6 -/

/-- C6: the hash of every entity is the hash of its id alone, and a successful
equality check implies equal hashes. -/
theorem hash_depends_only_on_id :
    (∀ a : PyObj, a.hashVal = pyHash a.id) ∧
    (∀ x : Photo, x.toPyObj.hashVal = pyHash x.id) ∧
    (∀ x : Video, x.toPyObj.hashVal = pyHash x.id) ∧
    (∀ x : Snippet, x.toPyObj.hashVal = pyHash x.id) ∧
    (∀ x : PartialMember, x.toPyObj.hashVal = pyHash x.id) ∧
    (∀ x : Member, x.toPyObj.hashVal = pyHash x.id) ∧
    (∀ x : PostLike, x.toPyObj.hashVal = pyHash x.id) ∧
    (∀ a b : PyObj, dunderEq a b = .ok true → a.hashVal = b.hashVal) := by
  refine ⟨fun _ => rfl, fun _ => rfl, fun _ => rfl, fun _ => rfl, fun _ => rfl,
    fun _ => rfl, fun _ => rfl, fun a b h => ?_⟩
  unfold dunderEq at h
  split at h
  · have hid : (a.id == b.id) = true := by injection h
    show pyHash a.id = pyHash b.id
    exact pyHash_congr a.id b.id hid
  · exact Except.noConfusion h

/-- C6 witness: two entities that compare equal hash equal. -/
theorem hash_depends_only_on_id_witness :
    PyObj.hashVal ⟨.CPartialMember, .str "m"⟩ = PyObj.hashVal ⟨.CMember, .str "m"⟩ :=
  (hash_depends_only_on_id).2.2.2.2.2.2.2 ⟨.CPartialMember, .str "m"⟩ ⟨.CMember, .str "m"⟩
    (by simp [dunderEq, isinstance, isSubclass, PyClass.parent, BEq.beq, JSON.beq])

/-! ### C5 -/

theorem partialMember_init_shape (d : Dict) (p : PartialMember)
    (h : PartialMember.init d = .ok p) :
    p = ⟨d, p.id, p.name, p.image_url, p.profile_type⟩ := by
  unfold PartialMember.init at h
  iterate 3 obtain ⟨_, _, h⟩ := except_bind_ok h
  simp [Pure.pure, Except.pure] at h
  subst h
  rfl

/-- C5: any payload sufficient to construct a Member also constructs a
PartialMember, with identical id, name, image url and profile type (the
specialization never overrides a base field). -/
theorem member_refines_partial_member (d : Dict) (m : Member)
    (h : Member.init d = .ok m) :
    PartialMember.init d = .ok ⟨d, m.id, m.name, m.image_url, m.profile_type⟩ := by
  unfold Member.init at h
  obtain ⟨base, hb, h⟩ := except_bind_ok h
  iterate 11 obtain ⟨_, _, h⟩ := except_bind_ok h
  simp [Pure.pure, Except.pure] at h
  subst h
  have hshape := partialMember_init_shape d base hb
  rw [hb, hshape]

def memberData : Dict :=
  [("memberId", .str "m1"), ("profileName", .str "Name"), ("profileType", .str "FAN"),
   ("communityId", .num 1), ("joined", .bool true), ("hasMembership", .bool false),
   ("hasOfficialMark", .bool false), ("hidden", .bool false), ("blinded", .bool false),
   ("followed", .bool false), ("myProfile", .bool false), ("firstJoinAt", .num 5)]

/-- C5 witness: a concrete Member payload constructs both a Member and a
PartialMember with the same base fields. -/
theorem member_refines_partial_member_witness :
    PartialMember.init memberData =
      .ok ⟨memberData, .str "m1", .str "Name", JSON.null, .str "FAN"⟩ :=
  member_refines_partial_member memberData
    ⟨memberData, .str "m1", .str "Name", JSON.null, .str "FAN", .num 1,
     JSON.null, JSON.null, .bool true, .bool false, .bool false, .bool false,
     .bool false, .bool false, .bool false, .num 5, JSON.null, none⟩ (by rfl)

/-! ### C4 -/

theorem postLike_init_like_id (d : Dict) (pl : PostLike)
    (h : PostLike.init d = .ok pl) :
    pl.like_id = dgetDefault d "viewerEmotionId" := by
  unfold PostLike.init at h
  iterate 20 obtain ⟨_, _, h⟩ := except_bind_ok h
  simp [Pure.pure, Except.pure] at h
  subst h
  rfl

/-- C4: omitting an optional field, or its enclosing sub-object, yields the
documented no-value result (Python None, i.e. JSON.null) while construction
still succeeds and every required field populates normally: shown for
the followCount of Member (with artistOfficialProfile also absent), the
type, site and image of Snippet, the profileImageUrl of PartialMember, and
the viewerEmotionId of PostLike. -/
theorem optional_fields_yield_no_value :
    (∀ (d : Dict) (v1 v2 v4 vc vj vhm vom vhd vbl vfo vmy vfj : JSON),
      dgetOpt d "memberId" = some v1 → dgetOpt d "profileName" = some v2 →
      dgetOpt d "profileType" = some v4 → dgetOpt d "communityId" = some vc →
      dgetOpt d "joined" = some vj → dgetOpt d "hasMembership" = some vhm →
      dgetOpt d "hasOfficialMark" = some vom → dgetOpt d "hidden" = some vhd →
      dgetOpt d "blinded" = some vbl → dgetOpt d "followed" = some vfo →
      dgetOpt d "myProfile" = some vmy → dgetOpt d "firstJoinAt" = some vfj →
      dgetOpt d "followCount" = none → dgetOpt d "artistOfficialProfile" = none →
      Member.init d = .ok ⟨d, v1, v2, dgetDefault d "profileImageUrl", v4, vc,
        dgetDefault d "profileCoverImageUrl", dgetDefault d "profileComment",
        vj, vhm, vom, vhd, vbl, vfo, vmy, vfj, JSON.null, none⟩) ∧
    (∀ (d : Dict) (v1 v2 v3 v4 v5 : JSON),
      dgetOpt d "snippetId" = some v1 → dgetOpt d "url" = some v2 →
      dgetOpt d "title" = some v3 → dgetOpt d "description" = some v4 →
      dgetOpt d "domain" = some v5 → dgetOpt d "type" = none →
      dgetOpt d "site" = none → dgetOpt d "image" = none →
      Snippet.init d =
        .ok ⟨d, v1, v2, v3, v4, JSON.null, JSON.null, v5, JSON.null⟩) ∧
    (∀ (d : Dict) (v1 v2 v3 : JSON),
      dgetOpt d "memberId" = some v1 → dgetOpt d "profileName" = some v2 →
      dgetOpt d "profileType" = some v3 → dgetOpt d "profileImageUrl" = none →
      PartialMember.init d = .ok ⟨d, v1, v2, JSON.null, v3⟩) ∧
    (∀ (d : Dict) (pl : PostLike),
      PostLike.init d = .ok pl → dgetOpt d "viewerEmotionId" = none →
      pl.like_id = JSON.null) := by
  refine ⟨?_, ?_, ?_, ?_⟩
  · intro d v1 v2 v4 vc vj vhm vom vhd vbl vfo vmy vfj h1 h2 h4 hc hj hhm hom hhd hbl hfo hmy hfj hfc hap
    simp [Member.init, PartialMember.init, dget, dgetDefault, h1, h2, h4, hc, hj, hhm,
      hom, hhd, hbl, hfo, hmy, hfj, hfc, hap, Bind.bind, Except.bind, Pure.pure, Except.pure]
  · intro d v1 v2 v3 v4 v5 h1 h2 h3 h4 h5 hty hsi him
    simp [Snippet.init, dget, dgetDefault, h1, h2, h3, h4, h5, hty, hsi, him,
      Bind.bind, Except.bind, Pure.pure, Except.pure]
  · intro d v1 v2 v3 h1 h2 h3 himg
    simp [PartialMember.init, dget, dgetDefault, h1, h2, h3, himg,
      Bind.bind, Except.bind, Pure.pure, Except.pure]
  · intro d pl h hli
    rw [postLike_init_like_id d pl h]
    simp [dgetDefault, hli]

/-- C4 witness: the concrete scenario of the spec, a Member payload without a
followCount key. -/
theorem optional_fields_yield_no_value_witness :
    Member.init memberData =
      .ok ⟨memberData, .str "m1", .str "Name", JSON.null, .str "FAN", .num 1,
        JSON.null, JSON.null, .bool true, .bool false, .bool false, .bool false,
        .bool false, .bool false, .bool false, .num 5, JSON.null, none⟩ :=
  optional_fields_yield_no_value.1 memberData _ _ _ _ _ _ _ _ _ _ _ _
    rfl rfl rfl rfl rfl rfl rfl rfl rfl rfl rfl rfl rfl rfl

/-! ### C8 -/

/-- C8: PostAuthor stores the joined, hasOfficialMark and myProfile flags
exactly as they appear in the payload, while the accessibility flag is
computed, holding exactly when the profileSpaceStatus value is the string
ACCESSIBLE. -/
theorem post_author_flags (d : Dict) (v1 v2 v4 vc vj vom vst vmy : JSON)
    (h1 : dgetOpt d "memberId" = some v1) (h2 : dgetOpt d "profileName" = some v2)
    (h4 : dgetOpt d "profileType" = some v4) (hc : dgetOpt d "communityId" = some vc)
    (hj : dgetOpt d "joined" = some vj) (hom : dgetOpt d "hasOfficialMark" = some vom)
    (hst : dgetOpt d "profileSpaceStatus" = some vst)
    (hmy : dgetOpt d "myProfile" = some vmy)
    (hap : dgetOpt d "artistOfficialProfile" = none) :
    PostAuthor.init d = .ok ⟨d, v1, v2, dgetDefault d "profileImageUrl", v4, vc,
      vj, vom, vst == JSON.str "ACCESSIBLE", vmy, none⟩ ∧
    ((vst == JSON.str "ACCESSIBLE") = true ↔ vst = JSON.str "ACCESSIBLE") := by
  constructor
  · simp [PostAuthor.init, PartialMember.init, dget, h1, h2, h4, hc, hj, hom, hst, hmy,
      hap, Bind.bind, Except.bind, Pure.pure, Except.pure]
  · cases vst <;> simp [BEq.beq, JSON.beq]

def authorData : Dict :=
  [("memberId", .str "a1"), ("profileName", .str "ArtistName"),
   ("profileType", .str "ARTIST"), ("communityId", .num 7), ("joined", .bool true),
   ("hasOfficialMark", .bool true), ("profileSpaceStatus", .str "ACCESSIBLE"),
   ("myProfile", .bool false)]

/-- C8 witness: a concrete author payload with an ACCESSIBLE status. -/
theorem post_author_flags_witness :
    PostAuthor.init authorData =
      .ok ⟨authorData, .str "a1", .str "ArtistName", JSON.null, .str "ARTIST", .num 7,
        .bool true, .bool true, true, .bool false, none⟩ ∧
    JSON.str "ACCESSIBLE" = JSON.str "ACCESSIBLE" := by
  have h := post_author_flags authorData _ _ _ _ _ _ _ _
    rfl rfl rfl rfl rfl rfl rfl rfl rfl
  exact ⟨h.1, rfl⟩

/-! ### Attachment accessor lemmas -/

theorem attachmentList_absent {α : Type} (p : Post) (kind : String)
    (leaf : Dict → Except PyErr α) (h : dgetOpt p.data "attachment" = none) :
    attachmentList p kind leaf = .error (.keyError "attachment") := by
  simp [attachmentList, dget, h, Bind.bind, Except.bind]

theorem attachmentList_no_bucket {α : Type} (p : Post) (att : Dict) (kind : String)
    (leaf : Dict → Except PyErr α)
    (hatt : dgetOpt p.data "attachment" = some (.obj att))
    (h : dgetOpt att kind = none) :
    attachmentList p kind leaf = .ok [] := by
  simp [attachmentList, dget, asObj, hatt, h, Bind.bind, Except.bind,
    Pure.pure, Except.pure]

theorem attachmentList_falsy {α : Type} (p : Post) (att : Dict) (kind : String)
    (leaf : Dict → Except PyErr α) (v : JSON)
    (hatt : dgetOpt p.data "attachment" = some (.obj att))
    (h : dgetOpt att kind = some v) (hv : truthy v = false) :
    attachmentList p kind leaf = .ok [] := by
  simp [attachmentList, dget, asObj, hatt, h, hv, Bind.bind, Except.bind,
    Pure.pure, Except.pure]

theorem attachmentList_bucket {α : Type} (p : Post) (att bucket : Dict) (kind : String)
    (leaf : Dict → Except PyErr α) (res : List α)
    (hatt : dgetOpt p.data "attachment" = some (.obj att))
    (h : dgetOpt att kind = some (.obj bucket)) (hne : bucket ≠ [])
    (hmap : bucket.mapM (fun kv => do
        let o ← asObj kv.2
        leaf o) = .ok res) :
    attachmentList p kind leaf = .ok res ∧ res.length = bucket.length := by
  have htr : truthy (JSON.obj bucket) = true := by
    cases bucket with
    | nil => exact absurd rfl hne
    | cons a l => rfl
  refine ⟨?_, mapM_ok_length _ bucket res hmap⟩
  simp only [attachmentList, dget, asObj, hatt, h, htr, Bind.bind, Except.bind, if_true]
  exact hmap

/-! ### C1 -/

/-- C1 amended: when the attachment section is present, each accessor
returns the empty list for an absent or falsy bucket, and otherwise one
leaf object per bucket entry, in bucket key-insertion order (hence length N
for N entries); when the attachment section itself is absent from the
payload, each accessor fails with a KeyError for the attachment key instead
of returning an empty sequence. -/
theorem post_attachment_accessors (p : Post) :
    (∀ att, dgetOpt p.data "attachment" = some (JSON.obj att) →
      ((dgetOpt att "photo" = none → p.photos = .ok []) ∧
       (∀ v, dgetOpt att "photo" = some v → truthy v = false → p.photos = .ok []) ∧
       (∀ bucket res, dgetOpt att "photo" = some (.obj bucket) → bucket ≠ [] →
         bucket.mapM (fun kv => do
           let o ← asObj kv.2
           Photo.init o) = .ok res →
         p.photos = .ok res ∧ res.length = bucket.length) ∧
       (dgetOpt att "video" = none → p.videos = .ok []) ∧
       (∀ v, dgetOpt att "video" = some v → truthy v = false → p.videos = .ok []) ∧
       (∀ bucket res, dgetOpt att "video" = some (.obj bucket) → bucket ≠ [] →
         bucket.mapM (fun kv => do
           let o ← asObj kv.2
           Video.init o) = .ok res →
         p.videos = .ok res ∧ res.length = bucket.length) ∧
       (dgetOpt att "snippet" = none → p.snippets = .ok []) ∧
       (∀ v, dgetOpt att "snippet" = some v → truthy v = false → p.snippets = .ok []) ∧
       (∀ bucket res, dgetOpt att "snippet" = some (.obj bucket) → bucket ≠ [] →
         bucket.mapM (fun kv => do
           let o ← asObj kv.2
           Snippet.init o) = .ok res →
         p.snippets = .ok res ∧ res.length = bucket.length))) ∧
    (dgetOpt p.data "attachment" = none →
      p.photos = .error (.keyError "attachment") ∧
      p.videos = .error (.keyError "attachment") ∧
      p.snippets = .error (.keyError "attachment")) := by
  constructor
  · intro att hatt
    refine ⟨fun h => attachmentList_no_bucket p att _ _ hatt h,
      fun v h hv => attachmentList_falsy p att _ _ v hatt h hv,
      fun bucket res h hne hmap => attachmentList_bucket p att bucket _ _ res hatt h hne hmap,
      fun h => attachmentList_no_bucket p att _ _ hatt h,
      fun v h hv => attachmentList_falsy p att _ _ v hatt h hv,
      fun bucket res h hne hmap => attachmentList_bucket p att bucket _ _ res hatt h hne hmap,
      fun h => attachmentList_no_bucket p att _ _ hatt h,
      fun v h hv => attachmentList_falsy p att _ _ v hatt h hv,
      fun bucket res h hne hmap => attachmentList_bucket p att bucket _ _ res hatt h hne hmap⟩
  · intro h
    exact ⟨attachmentList_absent p _ _ h, attachmentList_absent p _ _ h,
      attachmentList_absent p _ _ h⟩

def photoEntryA : Dict :=
  [("photoId", .str "pA"), ("url", .str "uA"), ("height", .num 1), ("width", .num 2)]

def photoEntryB : Dict :=
  [("photoId", .str "pB"), ("url", .str "uB"), ("height", .num 3), ("width", .num 4)]

def photoA : Photo := ⟨photoEntryA, .str "pA", .str "uA", .num 1, .num 2⟩

def photoB : Photo := ⟨photoEntryB, .str "pB", .str "uB", .num 3, .num 4⟩

def attW : Dict := [("photo", .obj [("kA", .obj photoEntryA), ("kB", .obj photoEntryB)])]

def authorW : PostAuthor :=
  ⟨authorData, .str "a1", .str "ArtistName", JSON.null, .str "ARTIST", .num 7,
   .bool true, .bool true, true, .bool false, none⟩

def postW : Post :=
  ⟨[("attachment", .obj attW)], .str "p1", .str "b", .str "pb", .str "u", .num 0,
   .num 0, .num 0, .bool false, .bool false, .bool false, .bool false, .bool false,
   JSON.null, .str "t", .str "s", authorW, ⟨[]⟩, JSON.null⟩

/-- C1 witness: a post whose attachment section holds a two-entry photo
bucket yields exactly the two photos, in bucket order. -/
theorem post_attachment_accessors_witness :
    postW.photos = .ok [photoA, photoB] ∧
      ([photoA, photoB] : List Photo).length = 2 := by
  have h := ((post_attachment_accessors postW).1 attW rfl).2.2.1
    [("kA", .obj photoEntryA), ("kB", .obj photoEntryB)] [photoA, photoB]
    rfl (by simp) rfl
  exact ⟨h.1, h.2.trans rfl⟩

def postPayloadNoAtt : Dict :=
  [("postId", .str "p1"), ("body", .str "b"), ("plainBody", .str "pb"),
   ("shareUrl", .str "u"), ("emotionCount", .num 0), ("commentCount", .num 0),
   ("publishedAt", .num 0), ("bookmarked", .bool false), ("locked", .bool false),
   ("hideFromArtist", .bool false), ("membershipOnly", .bool false),
   ("hasProduct", .bool false), ("tags", JSON.null), ("postType", .str "NORMAL"),
   ("sectionType", .str "FEED"), ("author", .obj authorData), ("community", .obj [])]

/-- C1 counterexample: a Post constructed from a payload with no attachment
section does not return empty sequences; each accessor fails with a
KeyError for the attachment key. -/
theorem post_accessors_absent_attachment_counterexample :
    Except.map Post.photos (PostLike.init postPayloadNoAtt) =
      .ok (.error (.keyError "attachment")) ∧
    Except.map Post.videos (PostLike.init postPayloadNoAtt) =
      .ok (.error (.keyError "attachment")) ∧
    Except.map Post.snippets (PostLike.init postPayloadNoAtt) =
      .ok (.error (.keyError "attachment")) := ⟨rfl, rfl, rfl⟩

/-! ### C9 -/

/-- C9: presence checks are truthiness checks, not key-existence checks: an
attachment bucket key that is present but maps to null or an empty mapping
yields an empty sequence, and a Snippet image key that is present but maps
to null or an empty mapping yields a null thumbnail url, with construction
succeeding. -/
theorem truthiness_presence_checks :
    (∀ (p : Post) (att : Dict) (v : JSON),
      dgetOpt p.data "attachment" = some (JSON.obj att) →
      dgetOpt att "photo" = some v → (v = JSON.null ∨ v = JSON.obj []) →
      p.photos = .ok []) ∧
    (∀ (p : Post) (att : Dict) (v : JSON),
      dgetOpt p.data "attachment" = some (JSON.obj att) →
      dgetOpt att "video" = some v → (v = JSON.null ∨ v = JSON.obj []) →
      p.videos = .ok []) ∧
    (∀ (p : Post) (att : Dict) (v : JSON),
      dgetOpt p.data "attachment" = some (JSON.obj att) →
      dgetOpt att "snippet" = some v → (v = JSON.null ∨ v = JSON.obj []) →
      p.snippets = .ok []) ∧
    (∀ (d : Dict) (v1 v2 v3 v4 v5 v : JSON),
      dgetOpt d "snippetId" = some v1 → dgetOpt d "url" = some v2 →
      dgetOpt d "title" = some v3 → dgetOpt d "description" = some v4 →
      dgetOpt d "domain" = some v5 → dgetOpt d "image" = some v →
      (v = JSON.null ∨ v = JSON.obj []) →
      Snippet.init d = .ok ⟨d, v1, v2, v3, v4, dgetDefault d "type",
        dgetDefault d "site", v5, JSON.null⟩) := by
  have htr : ∀ v : JSON, v = JSON.null ∨ v = JSON.obj [] → truthy v = false := by
    rintro v (rfl | rfl) <;> rfl
  refine ⟨?_, ?_, ?_, ?_⟩
  · rintro p att v hatt h hv
    exact attachmentList_falsy p att _ _ v hatt h (htr v hv)
  · rintro p att v hatt h hv
    exact attachmentList_falsy p att _ _ v hatt h (htr v hv)
  · rintro p att v hatt h hv
    exact attachmentList_falsy p att _ _ v hatt h (htr v hv)
  · rintro d v1 v2 v3 v4 v5 v h1 h2 h3 h4 h5 him hv
    simp [Snippet.init, dget, dgetDefault, h1, h2, h3, h4, h5, him, htr v hv,
      Bind.bind, Except.bind, Pure.pure, Except.pure]

def postN : Post :=
  ⟨[("attachment", .obj [("photo", JSON.null)])], .str "p1", .str "b", .str "pb",
   .str "u", .num 0, .num 0, .num 0, .bool false, .bool false, .bool false,
   .bool false, .bool false, JSON.null, .str "t", .str "s", authorW, ⟨[]⟩, JSON.null⟩

/-- C9 witness: an attachment section mapping photo to null yields an empty
photo list. -/
theorem truthiness_presence_checks_witness : postN.photos = .ok [] :=
  truthiness_presence_checks.1 postN [("photo", JSON.null)] JSON.null rfl rfl (Or.inl rfl)

/-! ### C3 -/

/-- C3 amended: a missing required key makes construction fail immediately
with a KeyError naming that key (scanning keys in the read order of the
constructor), with no partial object and no default; shown for each required key
of Photo and for the required author and community sub-mappings of
PostLike.  The error names only the missing field, not the entity kind. -/
theorem missing_required_field_fails (d : Dict) :
    (dgetOpt d "photoId" = none → Photo.init d = .error (.keyError "photoId")) ∧
    (∀ v1, dgetOpt d "photoId" = some v1 → dgetOpt d "url" = none →
      Photo.init d = .error (.keyError "url")) ∧
    (∀ v1 v2, dgetOpt d "photoId" = some v1 → dgetOpt d "url" = some v2 →
      dgetOpt d "height" = none → Photo.init d = .error (.keyError "height")) ∧
    (∀ v1 v2 v3, dgetOpt d "photoId" = some v1 → dgetOpt d "url" = some v2 →
      dgetOpt d "height" = some v3 → dgetOpt d "width" = none →
      Photo.init d = .error (.keyError "width")) ∧
    (∀ w1 w2 w3 w4 w5 w6 w7 w8 w9 w10 w11 w12 w13 w14 w15,
      dgetOpt d "postId" = some w1 → dgetOpt d "body" = some w2 →
      dgetOpt d "plainBody" = some w3 → dgetOpt d "shareUrl" = some w4 →
      dgetOpt d "emotionCount" = some w5 → dgetOpt d "commentCount" = some w6 →
      dgetOpt d "publishedAt" = some w7 → dgetOpt d "bookmarked" = some w8 →
      dgetOpt d "locked" = some w9 → dgetOpt d "hideFromArtist" = some w10 →
      dgetOpt d "membershipOnly" = some w11 → dgetOpt d "hasProduct" = some w12 →
      dgetOpt d "tags" = some w13 → dgetOpt d "postType" = some w14 →
      dgetOpt d "sectionType" = some w15 → dgetOpt d "author" = none →
      PostLike.init d = .error (.keyError "author")) ∧
    (∀ w1 w2 w3 w4 w5 w6 w7 w8 w9 w10 w11 w12 w13 w14 w15 (ad : Dict) (au : PostAuthor),
      dgetOpt d "postId" = some w1 → dgetOpt d "body" = some w2 →
      dgetOpt d "plainBody" = some w3 → dgetOpt d "shareUrl" = some w4 →
      dgetOpt d "emotionCount" = some w5 → dgetOpt d "commentCount" = some w6 →
      dgetOpt d "publishedAt" = some w7 → dgetOpt d "bookmarked" = some w8 →
      dgetOpt d "locked" = some w9 → dgetOpt d "hideFromArtist" = some w10 →
      dgetOpt d "membershipOnly" = some w11 → dgetOpt d "hasProduct" = some w12 →
      dgetOpt d "tags" = some w13 → dgetOpt d "postType" = some w14 →
      dgetOpt d "sectionType" = some w15 → dgetOpt d "author" = some (.obj ad) →
      PostAuthor.init ad = .ok au → dgetOpt d "community" = none →
      PostLike.init d = .error (.keyError "community")) := by
  refine ⟨?_, ?_, ?_, ?_, ?_, ?_⟩
  · intro h
    simp [Photo.init, dget, h, Bind.bind, Except.bind]
  · intro v1 h1 h
    simp [Photo.init, dget, h1, h, Bind.bind, Except.bind]
  · intro v1 v2 h1 h2 h
    simp [Photo.init, dget, h1, h2, h, Bind.bind, Except.bind]
  · intro v1 v2 v3 h1 h2 h3 h
    simp [Photo.init, dget, h1, h2, h3, h, Bind.bind, Except.bind]
  · intro w1 w2 w3 w4 w5 w6 w7 w8 w9 w10 w11 w12 w13 w14 w15
      h1 h2 h3 h4 h5 h6 h7 h8 h9 h10 h11 h12 h13 h14 h15 h
    simp [PostLike.init, dget, h1, h2, h3, h4, h5, h6, h7, h8, h9, h10, h11, h12,
      h13, h14, h15, h, Bind.bind, Except.bind]
  · intro w1 w2 w3 w4 w5 w6 w7 w8 w9 w10 w11 w12 w13 w14 w15 ad au
      h1 h2 h3 h4 h5 h6 h7 h8 h9 h10 h11 h12 h13 h14 h15 ha hau h
    simp [PostLike.init, dget, asObj, h1, h2, h3, h4, h5, h6, h7, h8, h9, h10, h11,
      h12, h13, h14, h15, ha, hau, h, Bind.bind, Except.bind]

/-- C3 witness: a Photo payload whose url key is missing fails with a
KeyError naming the url field. -/
theorem missing_required_field_fails_witness :
    Photo.init [("photoId", .str "p")] = .error (.keyError "url") :=
  (missing_required_field_fails [("photoId", .str "p")]).2.1 (.str "p") rfl rfl

/-- C3 counterexample: two different entity kinds failing on the same
missing field raise the very same error value, so the error cannot
identify the entity kind. -/
theorem missing_field_error_kind_counterexample :
    Photo.init [("photoId", .str "p")] = .error (.keyError "url") ∧
    Snippet.init [("snippetId", .str "s")] = .error (.keyError "url") ∧
    (PyErr.keyError "url" : PyErr) = PyErr.keyError "url" := ⟨rfl, rfl, rfl⟩
